import Mathlib

/-!
Verification of the AS-Tunnel tunnel manager (`install.py`) against its
natural-language specification.  The Python program manipulates two YAML
configuration documents (the Traefik static config and the dynamic routing
config), validates tunnel requests, persists the documents and supervises
the Traefik service.  We embed the relevant functions shallowly: YAML
documents become an inductive `Yaml` value, Python dict mutation becomes
pure association-list update, exceptions become `Except`, and every
external effect (file system, socket binds, systemctl) is a parameter of
an explicit environment record.
-/

namespace ASTunnel

/-- Structured values as produced by `yaml.safe_load`. -/
inductive Yaml where
  | str (s : String)
  | num (n : Nat)
  | bool (b : Bool)
  | list (items : List Yaml)
  | dict (entries : List (String × Yaml))

/-- First value bound to key `k`, mirroring Python dict lookup
(keys are unique in any dict built by the program). -/
def findKey (k : String) : List (String × Yaml) → Option Yaml
  | [] => none
  | (k', v) :: rest => if k' = k then some v else findKey k rest

/-- Python `d[k] = v`: replace the value in place if the key exists
(keeping its position, as Python dicts do), else append at the end. -/
def setKey : List (String × Yaml) → String → Yaml → List (String × Yaml)
  | [], k, v => [(k, v)]
  | (k', v') :: rest, k, v =>
    if k' = k then (k, v) :: rest else (k', v') :: setKey rest k v

/-- Python `del d[k]`: drop the first entry with key `k`. -/
def delKey : List (String × Yaml) → String → List (String × Yaml)
  | [], _ => []
  | (k', v') :: rest, k => if k' = k then rest else (k', v') :: delKey rest k

/-- Number of entries carrying key `k` (1 for any genuine Python dict key). -/
def countKey (k : String) : List (String × Yaml) → Nat
  | [] => 0
  | (k', _) :: rest => (if k' = k then 1 else 0) + countKey k rest

/-- Key lookup on a YAML value; `none` when the value is not a mapping. -/
def Yaml.lookup : Yaml → String → Option Yaml
  | .dict entries, k => findKey k entries
  | _, _ => none

/-- Python `k in d` on a mapping. -/
def Yaml.hasKey (y : Yaml) (k : String) : Bool :=
  (y.lookup k).isSome

/-- Python `d[k]`: `KeyError` when the key is missing, `TypeError` when the
value is not a mapping. -/
def Yaml.getItem (y : Yaml) (k : String) : Except String Yaml :=
  match y with
  | .dict entries =>
    match findKey k entries with
    | some v => .ok v
    | none => .error ("KeyError: " ++ k)
  | _ => .error "TypeError: value is not subscriptable"

/-- Python `d[k] = v` on a mapping. -/
def Yaml.setItem (y : Yaml) (k : String) (v : Yaml) : Except String Yaml :=
  match y with
  | .dict entries => .ok (.dict (setKey entries k v))
  | _ => .error "TypeError: value does not support item assignment"

/-- Python `d[k1][k2][k3] = v`: the two getitems may raise, then the update
of the inner dict is reflected in the outer document (mutation made pure). -/
def Yaml.setPath2 (y : Yaml) (k1 k2 k3 : String) (v : Yaml) : Except String Yaml :=
  match y.getItem k1 with
  | .error e => .error e
  | .ok c1 =>
    match c1.getItem k2 with
    | .error e => .error e
    | .ok c2 =>
      match c2.setItem k3 v with
      | .error e => .error e
      | .ok c2' =>
        match c1.setItem k2 c2' with
        | .error e => .error e
        | .ok c1' => y.setItem k1 c1'

/-- Python `del d[k1][k2][k3]` behind an `in` guard: the two getitems may
raise, and deleting an item of a non-mapping raises `TypeError`. -/
def Yaml.delPath2 (y : Yaml) (k1 k2 k3 : String) : Except String Yaml :=
  match y.getItem k1 with
  | .error e => .error e
  | .ok c1 =>
    match c1.getItem k2 with
    | .error e => .error e
    | .ok c2 =>
      match c2 with
      | .dict entries =>
        match c1.setItem k2 (.dict (delKey entries k3)) with
        | .error e => .error e
        | .ok c1' => y.setItem k1 c1'
      | _ => .error "TypeError: object does not support item deletion"

/-- Whether the first character list starts with the second one. -/
def charsStartWith : List Char → List Char → Bool
  | _, [] => true
  | [], _ :: _ => false
  | c :: cs, p :: ps => decide (c = p) && charsStartWith cs ps

/-- Whether the second character list occurs inside the first one. -/
def charsContain : List Char → List Char → Bool
  | [], pat => pat.isEmpty
  | c :: cs, pat => charsStartWith (c :: cs) pat || charsContain cs pat

/-- Python `pat in s` on strings: the substring test. -/
def strContains (s pat : String) : Bool :=
  charsContain s.data pat.data

/-- Python `k in y`: key test on mappings, substring test on strings,
element test on lists, `TypeError` on other values. -/
def pyContains (y : Yaml) (k : String) : Except String Bool :=
  match y with
  | .dict entries => .ok (findKey k entries).isSome
  | .str s => .ok (strContains s k)
  | .list items =>
    .ok (items.any (fun it =>
      match it with
      | .str s' => decide (s' = k)
      | _ => false))
  | .num _ => .error "TypeError: argument of type int is not iterable"
  | .bool _ => .error "TypeError: argument of type bool is not iterable"

/-- Python truthiness of a loaded document (`or`-defaulting and the
`if not config` guards depend on it). -/
def Yaml.truthy : Yaml → Bool
  | .str s => !(s == "")
  | .num n => !(n == 0)
  | .bool b => b
  | .list items => !items.isEmpty
  | .dict entries => !entries.isEmpty

/-- Whether a YAML value is a mapping. -/
def Yaml.isDict : Yaml → Bool
  | .dict _ => true
  | _ => false

/-! Global configuration constants of `install.py`. -/

def CONFIG_DIR : String := "/etc/traefik/"

def CONFIG_FILE : String := "/etc/traefik/traefik.yml"

def DYNAMIC_FILE : String := "/etc/traefik/dynamic.yml"

def SERVICE_FILE : String := "/etc/systemd/system/traefik-tunnel.service"

def RETRY_ATTEMPTS : Nat := 3

def RETRY_DELAY : Nat := 5

def KEEPALIVE_INTERVAL : Nat := 30

/-- Address family of a socket, as in `socket.AF_INET` / `socket.AF_INET6`. -/
inductive Family where
  | inet
  | inet6

/-- The parent directory of a path, as `os.path.dirname`. -/
def dirname (p : String) : String :=
  String.intercalate "/" ((p.splitOn "/").dropLast)

/-- File-system operations performed by the persistence code, recorded as a
trace so that the write discipline can be inspected. -/
inductive FsOp where
  | makedirs (dir : String)
  | write (path : String) (doc : Yaml)
  | rename (src : String) (dst : String)

/-- Outcomes of every external effect the tunnel manager performs: on-disk
file contents, `yaml.safe_load`, socket binds, `socket.inet_pton`
address-format checks, write success, and subprocess results. -/
structure Env where
  file : String → Option String
  parse : String → Option Yaml
  bindOk : Family → String → Nat → Bool
  addrOk : Family → String → Bool
  saveOk : String → Bool
  whichTraefikOk : Bool
  removeTarballOk : Bool
  systemctlOk : List String → Bool

/-- TunnelManager._load_config: a missing file yields `None`; a present file
whose parse raises also yields `None` (the exception is printed, not
propagated). -/
def loadConfig (env : Env) (filename : String) : Option Yaml :=
  match env.file filename with
  | some s => env.parse s
  | none => none

/-- Trace of file-system operations performed by `TunnelManager._save_config`:
`os.makedirs(dirname, exist_ok=True)` followed by a direct
`open(filename, "w")` + `yaml.dump`. -/
def saveConfigTrace (filename : String) (config : Yaml) : List FsOp :=
  [FsOp.makedirs (dirname filename), FsOp.write filename config]

/-- TunnelManager._save_config: on an I/O error the wrapped exception
propagates to the caller. -/
def saveConfig (env : Env) (filename : String) (config : Yaml) :
    Except String (List FsOp) :=
  if env.saveOk filename then .ok (saveConfigTrace filename config)
  else .error ("Failed to save config " ++ filename)

/-- TunnelManager._get_default_traefik_config. -/
def defaultTraefikConfig (apiPort : Nat) : Yaml :=
  .dict [
    ("entryPoints", .dict [("traefik", .dict [("address", .str ("0.0.0.0:" ++ toString apiPort))])]),
    ("api", .dict [("dashboard", .bool true), ("insecure", .bool true)]),
    ("providers", .dict [("file", .dict [("filename", .str DYNAMIC_FILE)])]),
    ("log", .dict [("level", .str "DEBUG"), ("format", .str "common")]),
    ("accessLog", .dict [])]

/-- The inline default dynamic document of `_create_configs`. -/
def defaultDynamicConfig : Yaml :=
  .dict [("tcp", .dict [("routers", .dict []), ("services", .dict [])])]

/-- Python `loaded or default`: the default is used when the load produced
`None` or a falsy document. -/
def orDefault (loaded : Option Yaml) (dflt : Yaml) : Yaml :=
  match loaded with
  | some y => if y.truthy then y else dflt
  | none => dflt

/-- The router descriptor `_update_dynamic_config` writes for a port. -/
def routerValue (port : Nat) : Yaml :=
  .dict [
    ("entryPoints", .list [.str ("port_" ++ toString port)]),
    ("service", .str ("tcp_service_" ++ toString port)),
    ("rule", .str "HostSNI(`*`)")]

/-- The service descriptor `_update_dynamic_config` writes for a port:
a single backend server at `ip_backend:port`, the frontend port number. -/
def serviceValue (ipBackend : String) (port : Nat) : Yaml :=
  .dict [
    ("loadBalancer", .dict [
      ("servers", .list [.dict [("address", .str (ipBackend ++ ":" ++ toString port))]])])]

/-- One iteration of `TunnelManager._update_traefik_config`: ensure the
`entryPoints` mapping exists, then bind `port_<port>` to listen address
`0.0.0.0:<port>`. -/
def updateTraefikPort (config : Yaml) (port : Nat) : Except String Yaml :=
  let entryPointName := "port_" ++ toString port
  let withKey : Except String Yaml :=
    if config.hasKey "entryPoints" then .ok config
    else config.setItem "entryPoints" (.dict [])
  match withKey with
  | .error e => .error e
  | .ok config =>
    match config.getItem "entryPoints" with
    | .error e => .error e
    | .ok eps =>
      match eps.setItem entryPointName (.dict [("address", .str ("0.0.0.0:" ++ toString port))]) with
      | .error e => .error e
      | .ok eps' => config.setItem "entryPoints" eps'

/-- TunnelManager._update_traefik_config over the whole port list. -/
def updateTraefikConfig (config : Yaml) : List Nat → Except String Yaml
  | [] => .ok config
  | port :: rest =>
    match updateTraefikPort config port with
    | .error e => .error e
    | .ok config => updateTraefikConfig config rest

/-- One iteration of `TunnelManager._update_dynamic_config`: upsert the
router and service entries under `tcp.routers` / `tcp.services`. -/
def updateDynamicPort (config : Yaml) (ipBackend : String) (port : Nat) :
    Except String Yaml :=
  match config.setPath2 "tcp" "routers" ("tcp_router_" ++ toString port) (routerValue port) with
  | .error e => .error e
  | .ok config =>
    config.setPath2 "tcp" "services" ("tcp_service_" ++ toString port) (serviceValue ipBackend port)

/-- TunnelManager._update_dynamic_config over the whole port list. -/
def updateDynamicConfig (config : Yaml) (ipBackend : String) : List Nat → Except String Yaml
  | [] => .ok config
  | port :: rest =>
    match updateDynamicPort config ipBackend port with
    | .error e => .error e
    | .ok config => updateDynamicConfig config ipBackend rest

/-- TunnelManager._check_port_available: bind an `AF_INET` TCP socket on
`("0.0.0.0", port)` and report whether the bind succeeded. -/
def checkPortAvailable (env : Env) (port : Nat) : Bool :=
  env.bindOk Family.inet "0.0.0.0" port

/-- The per-port loop of `TunnelManager._validate_inputs`; the inner
`ValueError`s are re-raised with an `Invalid port number` prefix. -/
def validatePorts (env : Env) : List Nat → Except String Unit
  | [] => .ok ()
  | port :: rest =>
    if port < 1 ∨ 65535 < port then
      .error ("Invalid port number: Port " ++ toString port ++ " out of valid range (1-65535)")
    else if !(checkPortAvailable env port) then
      .error ("Invalid port number: Port " ++ toString port ++ " is already in use")
    else validatePorts env rest

/-- TunnelManager._validate_inputs: IP version, backend address format, then
range and availability of every requested frontend port. -/
def validateInputs (env : Env) (ipVersion ipBackend : String) (ports : List Nat) :
    Except String Unit :=
  if ipVersion ≠ "4" ∧ ipVersion ≠ "6" then .error "Invalid IP version"
  else if !(env.addrOk (if ipVersion = "4" then Family.inet else Family.inet6) ipBackend) then
    .error ("Invalid IPv" ++ ipVersion ++ " address format")
  else validatePorts env ports

/-- Whether an `Except`-valued step completed without an exception. -/
def okB {α : Type} (e : Except String α) : Bool :=
  match e with
  | .ok _ => true
  | .error _ => false

/-- The successful result of an `Except`-valued step, if any. -/
def okOption {α : Type} (e : Except String α) : Option α :=
  match e with
  | .ok a => some a
  | .error _ => none

/-- TunnelManager._check_requirements: `which traefik` succeeding means no
further work; otherwise the download commands never raise (their failures
are printed) and only the final `os.remove("traefik.tar.gz")` can raise. -/
def checkRequirements (env : Env) : Except String Unit :=
  if env.whichTraefikOk then .ok ()
  else if env.removeTarballOk then .ok ()
  else .error "FileNotFoundError: traefik.tar.gz"

/-- TunnelManager._setup_service: write the unit file, then the `check=True`
systemctl calls (`daemon-reload`, `enable`, `start`); the intermediate
`stop` is wrapped in try/except and never raises. -/
def setupService (env : Env) : Except String Unit :=
  if !(env.saveOk SERVICE_FILE) then .error "failed to write service unit file"
  else if !(env.systemctlOk ["daemon-reload"]) then .error "systemctl daemon-reload failed"
  else if !(env.systemctlOk ["enable", "traefik-tunnel.service"]) then .error "systemctl enable failed"
  else if !(env.systemctlOk ["start", "traefik-tunnel.service"]) then .error "systemctl start failed"
  else .ok ()

/-- Result of `_create_configs`: the two updated documents and the
file-system trace of the two saves. -/
structure ConfigsResult where
  traefik : Yaml
  dynamic : Yaml
  trace : List FsOp

/-- TunnelManager._create_configs: load-or-default both documents, apply the
two updates, save both. -/
def createConfigs (env : Env) (apiPort : Nat) (ipBackend : String) (ports : List Nat) :
    Except String ConfigsResult :=
  let traefikConfig := orDefault (loadConfig env CONFIG_FILE) (defaultTraefikConfig apiPort)
  let dynamicConfig := orDefault (loadConfig env DYNAMIC_FILE) defaultDynamicConfig
  match updateTraefikConfig traefikConfig ports with
  | .error e => .error e
  | .ok traefikConfig =>
    match updateDynamicConfig dynamicConfig ipBackend ports with
    | .error e => .error e
    | .ok dynamicConfig =>
      match saveConfig env CONFIG_FILE traefikConfig with
      | .error e => .error e
      | .ok t1 =>
        match saveConfig env DYNAMIC_FILE dynamicConfig with
        | .error e => .error e
        | .ok t2 => .ok ⟨traefikConfig, dynamicConfig, t1 ++ t2⟩

/-- The body of `TunnelManager.install_tunnel` inside its try block
(`start_monitoring` only spawns a daemon thread and cannot raise). -/
def installPipeline (env : Env) (apiPort : Nat) (ipVersion ipBackend : String)
    (ports : List Nat) : Except String ConfigsResult :=
  match validateInputs env ipVersion ipBackend ports with
  | .error e => .error e
  | .ok _ =>
    match checkRequirements env with
    | .error e => .error e
    | .ok _ =>
      match createConfigs env apiPort ipBackend ports with
      | .error e => .error e
      | .ok r =>
        match setupService env with
        | .error e => .error e
        | .ok _ => .ok r

/-- TunnelManager.install_tunnel: every exception of the pipeline is caught
and reported as `False`; `True` means it ran to completion. -/
def installTunnel (env : Env) (apiPort : Nat) (ipVersion ipBackend : String)
    (ports : List Nat) : Bool :=
  okB (installPipeline env apiPort ipVersion ipBackend ports)

/-- The static-document part of one `delete_tunnel` loop iteration:
`"entryPoints" in traefik_config and entry_point in traefik_config["entryPoints"]`
followed by the guarded `del`; the `in` tests and the `del` follow Python
semantics, so a truthy non-mapping static document raises `TypeError`. -/
def deleteStatic (traefik : Yaml) (port : Nat) : Except String Yaml :=
  let entryPoint := "port_" ++ toString port
  match pyContains traefik "entryPoints" with
  | .error e => .error e
  | .ok false => .ok traefik
  | .ok true =>
    match traefik.getItem "entryPoints" with
    | .error e => .error e
    | .ok eps =>
      match pyContains eps entryPoint with
      | .error e => .error e
      | .ok false => .ok traefik
      | .ok true =>
        match traefik.getItem "entryPoints" with
        | .error e => .error e
        | .ok eps2 =>
          match eps2 with
          | .dict epsEntries =>
            traefik.setItem "entryPoints" (.dict (delKey epsEntries entryPoint))
          | _ => .error "TypeError: object does not support item deletion"

/-- The dynamic-document part of one `delete_tunnel` loop iteration: the
subscripts `dynamic_config["tcp"]["routers"]` and `...["services"]` are
unguarded, so a missing `tcp`, `routers` or `services` key raises; the
membership tests follow Python `in` semantics. -/
def deleteDynamic (dynamic : Yaml) (port : Nat) : Except String Yaml :=
  let routerName := "tcp_router_" ++ toString port
  let serviceName := "tcp_service_" ++ toString port
  match dynamic.getItem "tcp" with
  | .error e => .error e
  | .ok tcp =>
    match tcp.getItem "routers" with
    | .error e => .error e
    | .ok routers =>
      let step1 : Except String Yaml :=
        match pyContains routers routerName with
        | .error e => .error e
        | .ok true => dynamic.delPath2 "tcp" "routers" routerName
        | .ok false => .ok dynamic
      match step1 with
      | .error e => .error e
      | .ok dynamic =>
        match dynamic.getItem "tcp" with
        | .error e => .error e
        | .ok tcp2 =>
          match tcp2.getItem "services" with
          | .error e => .error e
          | .ok services =>
            match pyContains services serviceName with
            | .error e => .error e
            | .ok true => dynamic.delPath2 "tcp" "services" serviceName
            | .ok false => .ok dynamic

/-- The `for port in ports_to_delete` loop of `delete_tunnel`: the static
block of the body runs first, then the dynamic one. -/
def deleteLoop (traefik dynamic : Yaml) : List Nat → Except String (Yaml × Yaml)
  | [] => .ok (traefik, dynamic)
  | port :: rest =>
    match deleteStatic traefik port with
    | .error e => .error e
    | .ok traefik =>
      match deleteDynamic dynamic port with
      | .error e => .error e
      | .ok dynamic => deleteLoop traefik dynamic rest

/-- The part of `delete_tunnel` after the documents were loaded and found
truthy: the loop, the two saves, and the `check=True` systemctl restart. -/
def deletePipeline (env : Env) (traefik dynamic : Yaml) (ports : List Nat) :
    Except String (Yaml × Yaml × List FsOp) :=
  match deleteLoop traefik dynamic ports with
  | .error e => .error e
  | .ok (traefik, dynamic) =>
    match saveConfig env CONFIG_FILE traefik with
    | .error e => .error e
    | .ok t1 =>
      match saveConfig env DYNAMIC_FILE dynamic with
      | .error e => .error e
      | .ok t2 =>
        if !(env.systemctlOk ["restart", "traefik-tunnel.service"]) then
          .error "systemctl restart failed"
        else .ok (traefik, dynamic, t1 ++ t2)

/-- TunnelManager.delete_tunnel: a missing or falsy document prints an error
and returns `False`; any exception of the pipeline is caught and reported
as `False`. -/
def deleteTunnel (env : Env) (ports : List Nat) : Bool :=
  match loadConfig env CONFIG_FILE, loadConfig env DYNAMIC_FILE with
  | some traefik, some dynamic =>
    if traefik.truthy && dynamic.truthy then okB (deletePipeline env traefik dynamic ports)
    else false
  | some _, none => false
  | none, _ => false

/-- Observable counters of one `_attempt_recovery` run. -/
structure RecoveryOutcome where
  restarts : Nat
  probes : Nat
  recovered : Bool
  exhaustLogs : Nat

/-- The `for attempt in range(RETRY_ATTEMPTS)` loop of
`TunnelManager._attempt_recovery`: each iteration restarts the service
(`check=True`), waits `RETRY_DELAY`, re-runs the health probe and returns on
success; the exhaustion message is printed only in the last iteration. -/
def recoveryRun (restartOk probeOk : Nat → Bool) : List Nat → RecoveryOutcome
  | [] => ⟨0, 0, false, 0⟩
  | attempt :: rest =>
    let logHere : Nat := if attempt = RETRY_ATTEMPTS - 1 then 1 else 0
    if restartOk attempt then
      if probeOk attempt then ⟨1, 1, true, 0⟩
      else
        let r := recoveryRun restartOk probeOk rest
        ⟨r.restarts + 1, r.probes + 1, r.recovered, r.exhaustLogs + logHere⟩
    else
      let r := recoveryRun restartOk probeOk rest
      ⟨r.restarts + 1, r.probes, r.recovered, r.exhaustLogs + logHere⟩

/-- TunnelManager._attempt_recovery, with the per-attempt outcomes of the
`systemctl restart` call and of `_check_service_health` as parameters. -/
def attemptRecovery (restartOk probeOk : Nat → Bool) : RecoveryOutcome :=
  recoveryRun restartOk probeOk (List.range RETRY_ATTEMPTS)

/-- The Reconciler add operation: the pure document transformation
`_create_configs` performs between loading and saving. -/
def applyAdd (traefik dynamic : Yaml) (ipBackend : String) (ports : List Nat) :
    Except String (Yaml × Yaml) :=
  match updateTraefikConfig traefik ports with
  | .error e => .error e
  | .ok traefik =>
    match updateDynamicConfig dynamic ipBackend ports with
    | .error e => .error e
    | .ok dynamic => .ok (traefik, dynamic)

/-! Observers used to state the claims. -/

/-- The `address` string of entrypoint `port_<p>` in a static document. -/
def entryPointAddress (traefik : Yaml) (p : Nat) : Option String :=
  match traefik.lookup "entryPoints" with
  | some eps =>
    match eps.lookup ("port_" ++ toString p) with
    | some ep =>
      match ep.lookup "address" with
      | some (.str a) => some a
      | some _ => none
      | none => none
    | none => none
  | none => none

/-- The entry list of the `tcp.services` mapping of a dynamic document. -/
def dynServicesEntries (dynamic : Yaml) : Option (List (String × Yaml)) :=
  match dynamic.lookup "tcp" with
  | some tcp =>
    match tcp.lookup "services" with
    | some (.dict entries) => some entries
    | some _ => none
    | none => none
  | none => none

/-- The backend addresses of service `tcp_service_<p>` in a dynamic
document. -/
def serviceAddresses (dynamic : Yaml) (p : Nat) : Option (List String) :=
  match dynamic.lookup "tcp" with
  | some tcp =>
    match tcp.lookup "services" with
    | some services =>
      match services.lookup ("tcp_service_" ++ toString p) with
      | some sv =>
        match sv.lookup "loadBalancer" with
        | some lb =>
          match lb.lookup "servers" with
          | some (.list items) =>
            some (items.map (fun it =>
              match it.lookup "address" with
              | some (.str a) => a
              | some _ => ""
              | none => ""))
          | some _ => none
          | none => none
        | none => none
      | none => none
    | none => none
  | none => none

/-- Whether a static document declares entrypoint `port_<p>` (the on-disk
record of an existing tunnel for that frontend port). -/
def ownsPort (traefik : Yaml) (p : Nat) : Bool :=
  match traefik.lookup "entryPoints" with
  | some eps => eps.hasKey ("port_" ++ toString p)
  | none => false

/-- Whether a file-system trace contains a direct write of `path`. -/
def writesTo (trace : List FsOp) (path : String) : Bool :=
  trace.any (fun op =>
    match op with
    | .write p _ => p == path
    | _ => false)

/-- Modelled from the spec: an atomic save writes the document only to a
temporary path in the same directory as the canonical path and then renames
that temporary path over the canonical path; the canonical path is never
written directly. -/
def isAtomicSaveFor (canonical : String) (trace : List FsOp) : Bool :=
  (trace.all (fun op =>
    match op with
    | FsOp.write p _ => p != canonical
    | _ => true)) &&
  (trace.any (fun op =>
    match op with
    | FsOp.rename src dst => dst == canonical && src != canonical && dirname src == dirname canonical
    | _ => false))

/-- Well-formedness of a dynamic document as `delete_tunnel` requires it:
a mapping whose `tcp` entry is a mapping holding `routers` and `services`
mappings. -/
def wfDyn (dynamic : Yaml) : Prop :=
  ∃ d t rs ss, dynamic = .dict d ∧
    findKey "tcp" d = some (.dict t) ∧
    findKey "routers" t = some (.dict rs) ∧
    findKey "services" t = some (.dict ss)

/-- Well-formedness of a static document as `delete_tunnel` requires it:
a mapping whose `entryPoints` entry, when present, is itself a mapping
(a missing `entryPoints` key is fine). -/
def wfStatic (traefik : Yaml) : Prop :=
  ∃ entries, traefik = .dict entries ∧
    (findKey "entryPoints" entries = none ∨
      ∃ eps, findKey "entryPoints" entries = some (.dict eps))

/-- Whether either document mentions one of the three derived entries for
port `p`. -/
def mentionsPort (traefik dynamic : Yaml) (p : Nat) : Bool :=
  ownsPort traefik p ||
  (match dynamic.lookup "tcp" with
   | some tcp =>
     (match tcp.lookup "routers" with
      | some rs => rs.hasKey ("tcp_router_" ++ toString p)
      | none => false) ||
     (match tcp.lookup "services" with
      | some ss => ss.hasKey ("tcp_service_" ++ toString p)
      | none => false)
   | none => false)

/-! Concrete environments used by witnesses and counterexamples. -/

/-- A benign environment: no files on disk, every bind and every external
command succeeds. -/
def envBase : Env where
  file := fun _ => none
  parse := fun _ => none
  bindOk := fun _ _ _ => true
  addrOk := fun _ _ => true
  saveOk := fun _ => true
  whichTraefikOk := true
  removeTarballOk := true
  systemctlOk := fun _ => true

/-- A static document already declaring frontend port 9000. -/
def tcOwned : Yaml :=
  .dict [("entryPoints", .dict [("port_9000", .dict [("address", .str "0.0.0.0:9000")])])]

/-- Environment where port 9000 is already bound locally (by the tunnel the
on-disk static document itself declares) and the config file parses to
`tcOwned`. -/
def envOwned : Env :=
  { envBase with
    file := fun pth => if pth = CONFIG_FILE then some "traefik-config" else none
    parse := fun _ => some tcOwned
    bindOk := fun _ _ q => q != 9000 }

/-- Environment with a present-but-unparseable dynamic document and no
static document. -/
def envCorrupt : Env :=
  { envBase with
    file := fun pth => if pth = DYNAMIC_FILE then some "unparseable-yaml" else none }

/-- A truthy dynamic document lacking the `tcp` top-level key. -/
def dcNoTcp : Yaml :=
  .dict [("http", .dict [("routers", .dict [])])]

/-- Environment whose on-disk dynamic document is truthy but has no `tcp`
top-level key. -/
def envNoTcp : Env :=
  { envBase with
    file := fun pth =>
      if pth = CONFIG_FILE then some "traefik-config"
      else if pth = DYNAMIC_FILE then some "dynamic-config" else none
    parse := fun s => if s = "traefik-config" then some tcOwned else some dcNoTcp }

/-- Environment whose static document parses to the truthy YAML scalar `5`
(on which Python's `"entryPoints" in ...` raises `TypeError`) while the
dynamic document is the well-formed default. -/
def envNumStatic : Env :=
  { envBase with
    file := fun pth =>
      if pth = CONFIG_FILE then some "traefik-config"
      else if pth = DYNAMIC_FILE then some "dynamic-config" else none
    parse := fun s => if s = "traefik-config" then some (.num 5) else some defaultDynamicConfig }

/-- Environment in which every IPv6 bind fails while every IPv4 bind
succeeds. -/
def envSixBusy : Env :=
  { envBase with
    bindOk := fun fam _ _ =>
      match fam with
      | .inet => true
      | .inet6 => false }

/-- The documents produced by one add of `(9000, "10.0.0.5")` to the default
documents. -/
def addOnceResult : Except String (Yaml × Yaml) :=
  applyAdd (defaultTraefikConfig 8081) defaultDynamicConfig "10.0.0.5" [9000]

/-- Static document after that one add. -/
def tcAfterAdd : Yaml :=
  match addOnceResult with
  | .ok r => r.1
  | .error _ => .dict []

/-- Dynamic document after that one add. -/
def dcAfterAdd : Yaml :=
  match addOnceResult with
  | .ok r => r.2
  | .error _ => .dict []

/-- The full `_create_configs` run of claim C5: empty file system, api port
8081, backend host 10.0.0.5, frontend port 9000. -/
def c5Run : Except String ConfigsResult :=
  createConfigs envBase 8081 "10.0.0.5" [9000]

/-- A truthy static document without an `entryPoints` key. -/
def tcNoEps : Yaml := .dict [("api", .dict [("dashboard", .bool true)])]

/-- Environment whose static document lacks `entryPoints` and whose dynamic
document is the well-formed default. -/
def envWf : Env :=
  { envBase with
    file := fun pth =>
      if pth = CONFIG_FILE then some "traefik-config"
      else if pth = DYNAMIC_FILE then some "dynamic-config" else none
    parse := fun s => if s = "traefik-config" then some tcNoEps else some defaultDynamicConfig }

/-! Helper lemmas about the dictionary operations. -/

theorem findKey_setKey (l : List (String × Yaml)) (k k' : String) (v : Yaml) :
    findKey k' (setKey l k v) = if k' = k then some v else findKey k' l := by
  induction l with
  | nil =>
    by_cases h : k' = k
    · subst h
      simp [setKey, findKey]
    · simp [setKey, findKey, h, Ne.symm h]
  | cons hd tl ih =>
    obtain ⟨k0, v0⟩ := hd
    by_cases h0 : k0 = k
    · subst h0
      by_cases h1 : k' = k0
      · subst h1
        simp [setKey, findKey]
      · simp [setKey, findKey, h1, Ne.symm h1]
    · by_cases h1 : k' = k0
      · subst h1
        simp [setKey, findKey, h0, Ne.symm h0]
      · simp [setKey, findKey, h0, h1, Ne.symm h1, ih]

theorem setKey_setKey (l : List (String × Yaml)) (k : String) (v w : Yaml) :
    setKey (setKey l k v) k w = setKey l k w := by
  induction l with
  | nil => simp [setKey]
  | cons hd tl ih =>
    obtain ⟨k0, v0⟩ := hd
    by_cases h0 : k0 = k
    · simp [setKey, h0]
    · simp [setKey, h0, ih]

theorem setKey_of_findKey (l : List (String × Yaml)) (k : String) (v : Yaml)
    (h : findKey k l = some v) : setKey l k v = l := by
  induction l with
  | nil => simp [findKey] at h
  | cons hd tl ih =>
    obtain ⟨k0, v0⟩ := hd
    by_cases h0 : k0 = k
    · subst h0
      simp [findKey] at h
      simp [setKey, h]
    · simp [findKey, h0] at h
      simp [setKey, h0, ih h]

theorem countKey_setKey_eq_one (l : List (String × Yaml)) (k : String) (v : Yaml)
    (h : countKey k l ≤ 1) : countKey k (setKey l k v) = 1 := by
  induction l with
  | nil => simp [setKey, countKey]
  | cons hd tl ih =>
    obtain ⟨k0, v0⟩ := hd
    by_cases h0 : k0 = k
    · subst h0
      simp [countKey] at h
      simp [setKey, countKey]
      omega
    · simp [countKey, h0] at h
      simp [setKey, h0, countKey, ih h]

theorem validatePorts_congr (env env' : Env)
    (hb : ∀ q, env.bindOk Family.inet "0.0.0.0" q = env'.bindOk Family.inet "0.0.0.0" q)
    (ports : List Nat) : validatePorts env ports = validatePorts env' ports := by
  induction ports with
  | nil => rfl
  | cons port rest ih =>
    simp only [validatePorts, checkPortAvailable, hb port, ih]

theorem validatePorts_busy (env : Env) (p : Nat) :
    ∀ ports, p ∈ ports → (∀ q ∈ ports, 1 ≤ q ∧ q ≤ 65535) →
      checkPortAvailable env p = false → okB (validatePorts env ports) = false
  | [], hmem, _, _ => by simp at hmem
  | q :: rest, hmem, hrange, hbusy => by
    have hq := hrange q (List.mem_cons_self q rest)
    have hcond : ¬(q < 1 ∨ 65535 < q) := by omega
    rcases List.mem_cons.mp hmem with h | h
    · subst h
      simp only [validatePorts]
      rw [if_neg hcond, hbusy]
      rfl
    · by_cases hav : checkPortAvailable env q = true
      · have hrec := validatePorts_busy env p rest h
          (fun r hr => hrange r (List.mem_cons_of_mem _ hr)) hbusy
        simp only [validatePorts]
        rw [if_neg hcond, hav]
        exact hrec
      · simp only [Bool.not_eq_true] at hav
        simp only [validatePorts]
        rw [if_neg hcond, hav]
        rfl

/-! Claim theorems. -/

/-- C9: the frontend-port availability check always binds an IPv4 TCP socket
on the wildcard address `0.0.0.0`, whatever the declared IP version, so two
environments whose IPv4 wildcard bind outcomes (and address parsing) agree
validate identically, even for `ipVersion = "6"` and even if their IPv6
bind outcomes differ arbitrarily. -/
theorem c9_ipv4_only_probe (env env' : Env) (ipVersion ipBackend : String)
    (ports : List Nat) (p : Nat)
    (hb : ∀ q, env.bindOk Family.inet "0.0.0.0" q = env'.bindOk Family.inet "0.0.0.0" q)
    (ha : ∀ fam s, env.addrOk fam s = env'.addrOk fam s) :
    checkPortAvailable env p = env.bindOk Family.inet "0.0.0.0" p ∧
    validateInputs env ipVersion ipBackend ports = validateInputs env' ipVersion ipBackend ports := by
  constructor
  · rfl
  · simp only [validateInputs, ha, validatePorts_congr env env' hb ports]

/-- Witness for C9: an environment where every IPv6 bind fails validates an
IPv6 tunnel exactly like one where every bind succeeds. -/
theorem c9_witness :
    checkPortAvailable envSixBusy 9000 = envSixBusy.bindOk Family.inet "0.0.0.0" 9000 ∧
    validateInputs envSixBusy "6" "::1" [9000] = validateInputs envBase "6" "::1" [9000] :=
  c9_ipv4_only_probe envSixBusy envBase "6" "::1" [9000] 9000 (fun _ => rfl) (fun _ _ => rfl)

/-- Counterexample to C2 as stated: frontend port 9000 is declared by the
on-disk static document (owned by an existing tunnel) and the prober
reports it not free, yet validation still fails instead of treating the
request as an update. -/
theorem c2_counterexample :
    (loadConfig envOwned CONFIG_FILE).map (fun tc => ownsPort tc 9000) = some true ∧
    checkPortAvailable envOwned 9000 = false ∧
    okB (validateInputs envOwned "4" "10.0.0.5" [9000]) = false :=
  ⟨rfl, rfl, rfl⟩

/-- C2 (amended): whenever the prober reports any requested in-range port
not free to bind, validation fails; there is no exemption for ports owned
by an existing tunnel — validation never consults the persisted
configuration at all. -/
theorem c2_amended (env : Env) (ipVersion ipBackend : String) (ports : List Nat) (p : Nat)
    (hmem : p ∈ ports) (hrange : ∀ q ∈ ports, 1 ≤ q ∧ q ≤ 65535)
    (hbusy : checkPortAvailable env p = false) :
    okB (validateInputs env ipVersion ipBackend ports) = false ∧
    (∀ f g, validateInputs { env with file := f, parse := g } ipVersion ipBackend ports =
      validateInputs env ipVersion ipBackend ports) := by
  constructor
  · unfold validateInputs
    split
    · rfl
    · split
      · split
        · rfl
        · exact validatePorts_busy env p ports hmem hrange hbusy
      · split
        · rfl
        · exact validatePorts_busy env p ports hmem hrange hbusy
  · intro f g
    simp only [validateInputs]
    rw [validatePorts_congr { env with file := f, parse := g } env (fun _ => rfl) ports]

/-- Witness for C2 (amended) at the concrete busy-port environment. -/
theorem c2_witness :
    okB (validateInputs envOwned "4" "10.0.0.5" [9000]) = false ∧
    (∀ f g, validateInputs { envOwned with file := f, parse := g } "4" "10.0.0.5" [9000] =
      validateInputs envOwned "4" "10.0.0.5" [9000]) :=
  c2_amended envOwned "4" "10.0.0.5" [9000] 9000 (by simp) (by simp) rfl

/-- C8: against a health probe that fails on every invocation (and a restart
command that succeeds), `_attempt_recovery` performs exactly
`RETRY_ATTEMPTS` restart-wait-reprobe cycles, recovers nothing, and prints
exactly one exhaustion log entry. -/
theorem c8_bounded_recovery (restartOk probeOk : Nat → Bool)
    (hr : ∀ i, restartOk i = true) (hp : ∀ i, probeOk i = false) :
    (attemptRecovery restartOk probeOk).restarts = RETRY_ATTEMPTS ∧
    (attemptRecovery restartOk probeOk).probes = RETRY_ATTEMPTS ∧
    (attemptRecovery restartOk probeOk).recovered = false ∧
    (attemptRecovery restartOk probeOk).exhaustLogs = 1 := by
  have hrange : List.range RETRY_ATTEMPTS = [0, 1, 2] := rfl
  simp [attemptRecovery, hrange, recoveryRun, hr 0, hr 1, hr 2, hp 0, hp 1, hp 2, RETRY_ATTEMPTS]

/-- Witness for C8 at the constantly failing probe. -/
theorem c8_witness :
    (attemptRecovery (fun _ => true) (fun _ => false)).restarts = RETRY_ATTEMPTS ∧
    (attemptRecovery (fun _ => true) (fun _ => false)).probes = RETRY_ATTEMPTS ∧
    (attemptRecovery (fun _ => true) (fun _ => false)).recovered = false ∧
    (attemptRecovery (fun _ => true) (fun _ => false)).exhaustLogs = 1 :=
  c8_bounded_recovery (fun _ => true) (fun _ => false) (fun _ => rfl) (fun _ => rfl)

/-- Counterexample to C4 as stated: the save of the static document is not
an atomic temp-write-then-rename; its trace fails the atomic-save
discipline. -/
theorem c4_counterexample :
    isAtomicSaveFor CONFIG_FILE (saveConfigTrace CONFIG_FILE (defaultTraefikConfig 8081)) = false :=
  rfl

/-- C4 (amended): every save writes the document directly to the canonical
path after an idempotent directory creation; no temporary path and no
rename are involved, so the trace never satisfies the atomic-save
discipline. -/
theorem c4_amended (filename : String) (config : Yaml) :
    saveConfigTrace filename config =
      [FsOp.makedirs (dirname filename), FsOp.write filename config] ∧
    isAtomicSaveFor filename (saveConfigTrace filename config) = false := by
  refine ⟨rfl, ?_⟩
  simp [isAtomicSaveFor, saveConfigTrace]

/-- Counterexample to C5 as stated: adding tunnel
`(frontendPort 9000, backend 10.0.0.5, ipv4)` on empty documents makes
`entryPoints.port_9000.address` equal to `"0.0.0.0:9000"`, not `":9000"`. -/
theorem c5_counterexample :
    (okOption c5Run).map (fun r => entryPointAddress r.traefik 9000) =
      some (some "0.0.0.0:9000") ∧
    ("0.0.0.0:9000" : String) ≠ ":9000" :=
  ⟨rfl, by decide⟩

/-- C5 (amended): the same add produces a static document in which
`entryPoints.port_9000.address` equals `"0.0.0.0:9000"`. -/
theorem c5_amended :
    (okOption c5Run).map (fun r => entryPointAddress r.traefik 9000) =
      some (some "0.0.0.0:9000") :=
  rfl

/-- Counterexample to C1 as stated: for the tunnel with frontend port 9000,
backend host 10.0.0.5 and backend port 80, the add operation stores the
single backend server address `"10.0.0.5:9000"` — host and frontend port —
which differs from `backendHost:backendPort = "10.0.0.5:80"`. -/
theorem c1_counterexample :
    (okOption (updateDynamicConfig defaultDynamicConfig "10.0.0.5" [9000])).map
      (fun dc => serviceAddresses dc 9000) = some (some ["10.0.0.5:9000"]) ∧
    ("10.0.0.5:9000" : String) ≠ "10.0.0.5:80" :=
  ⟨rfl, by decide⟩

theorem updateTraefikPort_idem (tc tc' : Yaml) (p : Nat)
    (h : updateTraefikPort tc p = Except.ok tc') :
    updateTraefikPort tc' p = Except.ok tc' := by
  cases tc with
  | str s => simp [updateTraefikPort, Yaml.hasKey, Yaml.lookup, Yaml.setItem] at h
  | num n => simp [updateTraefikPort, Yaml.hasKey, Yaml.lookup, Yaml.setItem] at h
  | bool b => simp [updateTraefikPort, Yaml.hasKey, Yaml.lookup, Yaml.setItem] at h
  | list items => simp [updateTraefikPort, Yaml.hasKey, Yaml.lookup, Yaml.setItem] at h
  | dict te =>
    cases hf : findKey "entryPoints" te with
    | none =>
      simp [updateTraefikPort, Yaml.hasKey, Yaml.lookup, hf, Yaml.setItem, Yaml.getItem,
        findKey_setKey, setKey_setKey] at h
      subst h
      simp [updateTraefikPort, Yaml.hasKey, Yaml.lookup, Yaml.setItem, Yaml.getItem,
        findKey_setKey, setKey_setKey, setKey]
    | some eps =>
      cases eps with
      | dict e =>
        simp [updateTraefikPort, Yaml.hasKey, Yaml.lookup, hf, Yaml.setItem, Yaml.getItem,
          findKey_setKey, setKey_setKey] at h
        subst h
        simp [updateTraefikPort, Yaml.hasKey, Yaml.lookup, Yaml.setItem, Yaml.getItem,
          findKey_setKey, setKey_setKey]
      | str s =>
        simp [updateTraefikPort, Yaml.hasKey, Yaml.lookup, hf, Yaml.setItem, Yaml.getItem] at h
      | num n =>
        simp [updateTraefikPort, Yaml.hasKey, Yaml.lookup, hf, Yaml.setItem, Yaml.getItem] at h
      | bool b =>
        simp [updateTraefikPort, Yaml.hasKey, Yaml.lookup, hf, Yaml.setItem, Yaml.getItem] at h
      | list items =>
        simp [updateTraefikPort, Yaml.hasKey, Yaml.lookup, hf, Yaml.setItem, Yaml.getItem] at h

theorem updateDynamicPort_idem (dc dc' : Yaml) (H : String) (p : Nat)
    (h : updateDynamicPort dc H p = Except.ok dc') :
    updateDynamicPort dc' H p = Except.ok dc' := by
  cases dc with
  | str s => simp [updateDynamicPort, Yaml.setPath2, Yaml.getItem] at h
  | num n => simp [updateDynamicPort, Yaml.setPath2, Yaml.getItem] at h
  | bool b => simp [updateDynamicPort, Yaml.setPath2, Yaml.getItem] at h
  | list items => simp [updateDynamicPort, Yaml.setPath2, Yaml.getItem] at h
  | dict d =>
    cases h1 : findKey "tcp" d with
    | none => simp [updateDynamicPort, Yaml.setPath2, Yaml.getItem, h1] at h
    | some c1 =>
      cases c1 with
      | str s => simp [updateDynamicPort, Yaml.setPath2, Yaml.getItem, h1] at h
      | num n => simp [updateDynamicPort, Yaml.setPath2, Yaml.getItem, h1] at h
      | bool b => simp [updateDynamicPort, Yaml.setPath2, Yaml.getItem, h1] at h
      | list items => simp [updateDynamicPort, Yaml.setPath2, Yaml.getItem, h1] at h
      | dict t =>
        cases h2 : findKey "routers" t with
        | none => simp [updateDynamicPort, Yaml.setPath2, Yaml.getItem, Yaml.setItem, h1, h2] at h
        | some c2 =>
          cases c2 with
          | str s => simp [updateDynamicPort, Yaml.setPath2, Yaml.getItem, Yaml.setItem, h1, h2] at h
          | num n => simp [updateDynamicPort, Yaml.setPath2, Yaml.getItem, Yaml.setItem, h1, h2] at h
          | bool b => simp [updateDynamicPort, Yaml.setPath2, Yaml.getItem, Yaml.setItem, h1, h2] at h
          | list items => simp [updateDynamicPort, Yaml.setPath2, Yaml.getItem, Yaml.setItem, h1, h2] at h
          | dict rr =>
            cases h3 : findKey "services" t with
            | none =>
              simp [updateDynamicPort, Yaml.setPath2, Yaml.getItem, Yaml.setItem, h1, h2, h3,
                findKey_setKey] at h
            | some c3 =>
              cases c3 with
              | str s =>
                simp [updateDynamicPort, Yaml.setPath2, Yaml.getItem, Yaml.setItem, h1, h2, h3,
                  findKey_setKey] at h
              | num n =>
                simp [updateDynamicPort, Yaml.setPath2, Yaml.getItem, Yaml.setItem, h1, h2, h3,
                  findKey_setKey] at h
              | bool b =>
                simp [updateDynamicPort, Yaml.setPath2, Yaml.getItem, Yaml.setItem, h1, h2, h3,
                  findKey_setKey] at h
              | list items =>
                simp [updateDynamicPort, Yaml.setPath2, Yaml.getItem, Yaml.setItem, h1, h2, h3,
                  findKey_setKey] at h
              | dict ss =>
                simp [updateDynamicPort, Yaml.setPath2, Yaml.getItem, Yaml.setItem, h1, h2, h3,
                  findKey_setKey, setKey_setKey] at h
                subst h
                simp [updateDynamicPort, Yaml.setPath2, Yaml.getItem, Yaml.setItem,
                  findKey_setKey, setKey_setKey, setKey_of_findKey]

/-- C7: applying the add operation twice with the same unchanged tunnel
`(ipBackend, p)` to any pair of current documents yields documents equal to
applying it once — the add is convergent and creates no duplicate
entrypoint, router or service for the port. -/
theorem c7_idempotent (tc dc tc' dc' : Yaml) (ipBackend : String) (p : Nat)
    (h : applyAdd tc dc ipBackend [p] = Except.ok (tc', dc')) :
    applyAdd tc' dc' ipBackend [p] = Except.ok (tc', dc') := by
  cases h1 : updateTraefikPort tc p with
  | error e => simp [applyAdd, updateTraefikConfig, h1] at h
  | ok a =>
    cases h2 : updateDynamicPort dc ipBackend p with
    | error e => simp [applyAdd, updateTraefikConfig, updateDynamicConfig, h1, h2] at h
    | ok b =>
      simp [applyAdd, updateTraefikConfig, updateDynamicConfig, h1, h2] at h
      obtain ⟨rfl, rfl⟩ := h
      simp [applyAdd, updateTraefikConfig, updateDynamicConfig,
        updateTraefikPort_idem tc a p h1, updateDynamicPort_idem dc b ipBackend p h2]

/-- Witness for C7: re-adding tunnel `(9000, 10.0.0.5)` to the documents it
produced leaves them unchanged. -/
theorem c7_witness :
    applyAdd tcAfterAdd dcAfterAdd "10.0.0.5" [9000] = Except.ok (tcAfterAdd, dcAfterAdd) :=
  c7_idempotent (defaultTraefikConfig 8081) defaultDynamicConfig tcAfterAdd dcAfterAdd
    "10.0.0.5" 9000 rfl

/-- C1 (amended): adding a tunnel with frontend port `p` and backend host
`H` to a well-formed dynamic document yields exactly one
`tcp_service_<p>` entry, holding exactly one backend server, whose address
is `H:p` — host and frontend port; the add operation accepts no separate
backend port. -/
theorem c1_amended (d t rsE ssE : List (String × Yaml)) (H : String) (p : Nat)
    (h1 : findKey "tcp" d = some (.dict t))
    (h2 : findKey "routers" t = some (.dict rsE))
    (h3 : findKey "services" t = some (.dict ssE))
    (h4 : countKey ("tcp_service_" ++ toString p) ssE ≤ 1) :
    (okOption (updateDynamicConfig (.dict d) H [p])).map (fun dc' => dynServicesEntries dc') =
      some (some (setKey ssE ("tcp_service_" ++ toString p) (serviceValue H p))) ∧
    countKey ("tcp_service_" ++ toString p)
      (setKey ssE ("tcp_service_" ++ toString p) (serviceValue H p)) = 1 ∧
    findKey ("tcp_service_" ++ toString p)
      (setKey ssE ("tcp_service_" ++ toString p) (serviceValue H p)) =
      some (serviceValue H p) := by
  refine ⟨?_, countKey_setKey_eq_one ssE _ _ h4, ?_⟩
  · simp [updateDynamicConfig, updateDynamicPort, Yaml.setPath2, Yaml.getItem, Yaml.setItem,
      h1, h2, h3, findKey_setKey, setKey_setKey, okOption, dynServicesEntries, Yaml.lookup]
  · simp [findKey_setKey]

/-- Witness for C1 (amended) at the default (empty) dynamic document. -/
theorem c1_witness :
    (okOption (updateDynamicConfig defaultDynamicConfig "10.0.0.5" [9000])).map
      (fun dc' => dynServicesEntries dc') =
      some (some (setKey [] ("tcp_service_" ++ toString 9000) (serviceValue "10.0.0.5" 9000))) ∧
    countKey ("tcp_service_" ++ toString 9000)
      (setKey [] ("tcp_service_" ++ toString 9000) (serviceValue "10.0.0.5" 9000)) = 1 ∧
    findKey ("tcp_service_" ++ toString 9000)
      (setKey [] ("tcp_service_" ++ toString 9000) (serviceValue "10.0.0.5" 9000)) =
      some (serviceValue "10.0.0.5" 9000) :=
  c1_amended [("tcp", .dict [("routers", .dict []), ("services", .dict [])])]
    [("routers", .dict []), ("services", .dict [])] [] [] "10.0.0.5" 9000
    rfl rfl rfl (by simp [countKey])

/-- Counterexample to C3 as stated: with the dynamic document present but
unparseable, load yields the same `None` as a missing file (no distinct
ConfigCorrupt failure), and the add path completes successfully while
writing the dynamic document path — replacing the corrupt file. -/
theorem c3_counterexample :
    loadConfig envCorrupt DYNAMIC_FILE = none ∧
    okB (createConfigs envCorrupt 8081 "10.0.0.5" [9000]) = true ∧
    (okOption (createConfigs envCorrupt 8081 "10.0.0.5" [9000])).map
      (fun r => writesTo r.trace DYNAMIC_FILE) = some true :=
  ⟨rfl, rfl, rfl⟩

/-- C3 (amended): a present-but-unparseable configuration file is treated
exactly like a missing file — load returns no document and raises no
distinct ConfigCorrupt error — and the add path then overwrites that file
with the defaults plus the new tunnel entries. -/
theorem c3_amended (env : Env) (apiPort : Nat) (H : String) (p : Nat) (s : String)
    (h1 : env.file DYNAMIC_FILE = some s) (h2 : env.parse s = none)
    (h3 : loadConfig env CONFIG_FILE = none)
    (h4 : env.saveOk CONFIG_FILE = true) (h5 : env.saveOk DYNAMIC_FILE = true) :
    loadConfig env DYNAMIC_FILE = none ∧
    (okOption (createConfigs env apiPort H [p])).map
      (fun r => writesTo r.trace DYNAMIC_FILE) = some true := by
  have hload : loadConfig env DYNAMIC_FILE = none := by simp [loadConfig, h1, h2]
  have hne : (CONFIG_FILE == DYNAMIC_FILE) = false := by decide
  refine ⟨hload, ?_⟩
  unfold createConfigs
  rw [h3, hload]
  simp [orDefault, defaultTraefikConfig, defaultDynamicConfig,
    updateTraefikConfig, updateTraefikPort, updateDynamicConfig, updateDynamicPort,
    Yaml.setPath2, Yaml.getItem, Yaml.setItem, Yaml.hasKey, Yaml.lookup, findKey, setKey,
    saveConfig, h4, h5, okOption, writesTo, saveConfigTrace, hne]

/-- Witness for C3 (amended) at the concrete corrupt-file environment. -/
theorem c3_witness :
    loadConfig envCorrupt DYNAMIC_FILE = none ∧
    (okOption (createConfigs envCorrupt 8081 "10.0.0.5" [9000])).map
      (fun r => writesTo r.trace DYNAMIC_FILE) = some true :=
  c3_amended envCorrupt 8081 "10.0.0.5" 9000 "unparseable-yaml" rfl rfl rfl rfl rfl

theorem deleteDynamic_wf (dc : Yaml) (p : Nat) (h : wfDyn dc) :
    ∃ dc', deleteDynamic dc p = Except.ok dc' ∧ wfDyn dc' := by
  obtain ⟨d, t, rs, ss, rfl, h1, h2, h3⟩ := h
  cases hr : findKey ("tcp_router_" ++ toString p) rs with
  | none =>
    cases hs : findKey ("tcp_service_" ++ toString p) ss with
    | none =>
      refine ⟨.dict d, ?_, d, t, rs, ss, rfl, h1, h2, h3⟩
      simp [deleteDynamic, Yaml.getItem, pyContains, h1, h2, h3, hr, hs]
    | some sv =>
      refine ⟨.dict (setKey d "tcp" (.dict (setKey t "services"
          (.dict (delKey ss ("tcp_service_" ++ toString p)))))), ?_, ?_⟩
      · simp [deleteDynamic, Yaml.getItem, pyContains, Yaml.delPath2,
          Yaml.setItem, h1, h2, h3, hr, hs]
      · exact ⟨setKey d "tcp" (.dict (setKey t "services"
            (.dict (delKey ss ("tcp_service_" ++ toString p))))),
          setKey t "services" (.dict (delKey ss ("tcp_service_" ++ toString p))),
          rs, delKey ss ("tcp_service_" ++ toString p), rfl,
          by simp [findKey_setKey],
          by simp +decide [findKey_setKey, h2],
          by simp [findKey_setKey]⟩
  | some rv =>
    cases hs : findKey ("tcp_service_" ++ toString p) ss with
    | none =>
      refine ⟨.dict (setKey d "tcp" (.dict (setKey t "routers"
          (.dict (delKey rs ("tcp_router_" ++ toString p)))))), ?_, ?_⟩
      · simp [deleteDynamic, Yaml.getItem, pyContains, Yaml.delPath2,
          Yaml.setItem, h1, h2, h3, hr, hs, findKey_setKey]
      · exact ⟨setKey d "tcp" (.dict (setKey t "routers"
            (.dict (delKey rs ("tcp_router_" ++ toString p))))),
          setKey t "routers" (.dict (delKey rs ("tcp_router_" ++ toString p))),
          delKey rs ("tcp_router_" ++ toString p), ss, rfl,
          by simp [findKey_setKey],
          by simp [findKey_setKey],
          by simp +decide [findKey_setKey, h3]⟩
    | some sv =>
      refine ⟨.dict (setKey d "tcp" (.dict (setKey
          (setKey t "routers" (.dict (delKey rs ("tcp_router_" ++ toString p))))
          "services" (.dict (delKey ss ("tcp_service_" ++ toString p)))))), ?_, ?_⟩
      · simp [deleteDynamic, Yaml.getItem, pyContains, Yaml.delPath2,
          Yaml.setItem, h1, h2, h3, hr, hs, findKey_setKey, setKey_setKey]
      · exact ⟨setKey d "tcp" (.dict (setKey
            (setKey t "routers" (.dict (delKey rs ("tcp_router_" ++ toString p))))
            "services" (.dict (delKey ss ("tcp_service_" ++ toString p))))),
          setKey (setKey t "routers" (.dict (delKey rs ("tcp_router_" ++ toString p))))
            "services" (.dict (delKey ss ("tcp_service_" ++ toString p))),
          delKey rs ("tcp_router_" ++ toString p),
          delKey ss ("tcp_service_" ++ toString p), rfl,
          by simp [findKey_setKey],
          by simp +decide [findKey_setKey],
          by simp [findKey_setKey]⟩

theorem deleteStatic_wf (tc : Yaml) (p : Nat) (h : wfStatic tc) :
    ∃ tc', deleteStatic tc p = Except.ok tc' ∧ wfStatic tc' := by
  obtain ⟨entries, rfl, hcase⟩ := h
  rcases hcase with hnone | ⟨eps, hsome⟩
  · refine ⟨.dict entries, ?_, entries, rfl, Or.inl hnone⟩
    simp [deleteStatic, pyContains, hnone]
  · cases hk : findKey ("port_" ++ toString p) eps with
    | none =>
      refine ⟨.dict entries, ?_, entries, rfl, Or.inr ⟨eps, hsome⟩⟩
      simp [deleteStatic, pyContains, Yaml.getItem, hsome, hk]
    | some v =>
      refine ⟨.dict (setKey entries "entryPoints"
          (.dict (delKey eps ("port_" ++ toString p)))), ?_,
        setKey entries "entryPoints" (.dict (delKey eps ("port_" ++ toString p))), rfl,
        Or.inr ⟨delKey eps ("port_" ++ toString p), by simp [findKey_setKey]⟩⟩
      simp [deleteStatic, pyContains, Yaml.getItem, Yaml.setItem, hsome, hk]

theorem deleteLoop_wf (ports : List Nat) :
    ∀ tc dc : Yaml, wfStatic tc → wfDyn dc →
      ∃ tc' dc', deleteLoop tc dc ports = Except.ok (tc', dc') ∧ wfStatic tc' ∧ wfDyn dc' := by
  induction ports with
  | nil => exact fun tc dc hs hd => ⟨tc, dc, rfl, hs, hd⟩
  | cons port rest ih =>
    intro tc dc hs hd
    obtain ⟨tc1, hstep1, hwfs1⟩ := deleteStatic_wf tc port hs
    obtain ⟨dc1, hstep2, hwfd1⟩ := deleteDynamic_wf dc port hd
    obtain ⟨tc', dc', hloop, hwf⟩ := ih tc1 dc1 hwfs1 hwfd1
    exact ⟨tc', dc', by simp [deleteLoop, hstep1, hstep2, hloop], hwf⟩

theorem deleteStatic_noop (tc : Yaml) (p : Nat) (h : wfStatic tc)
    (ho : ownsPort tc p = false) : deleteStatic tc p = Except.ok tc := by
  obtain ⟨entries, rfl, hcase⟩ := h
  rcases hcase with hnone | ⟨eps, hsome⟩
  · simp [deleteStatic, pyContains, hnone]
  · simp only [ownsPort, Yaml.lookup, hsome, Yaml.hasKey] at ho
    simp [deleteStatic, pyContains, Yaml.getItem, hsome, ho]

theorem deleteLoop_noop (tc dc : Yaml) (hst : wfStatic tc) (h : wfDyn dc) :
    ∀ ports, (∀ p ∈ ports, mentionsPort tc dc p = false) →
      deleteLoop tc dc ports = Except.ok (tc, dc)
  | [], _ => rfl
  | port :: rest, habs => by
    have hm := habs port (List.mem_cons_self _ _)
    obtain ⟨d, t, rs, ss, hdc, h1, h2, h3⟩ := h
    subst hdc
    unfold mentionsPort at hm
    rw [Bool.or_eq_false_iff] at hm
    obtain ⟨hm1, hmRest⟩ := hm
    simp only [Yaml.lookup, Yaml.hasKey, h1, h2, h3, Bool.or_eq_false_iff] at hmRest
    obtain ⟨hm2, hm3⟩ := hmRest
    have hdyn : deleteDynamic (Yaml.dict d) port = Except.ok (Yaml.dict d) := by
      simp [deleteDynamic, Yaml.getItem, pyContains, h1, h2, h3, hm2, hm3]
    simp only [deleteLoop, deleteStatic_noop tc port hst hm1, hdyn]
    exact deleteLoop_noop tc (Yaml.dict d) hst ⟨d, t, rs, ss, rfl, h1, h2, h3⟩ rest
      (fun p hp => habs p (List.mem_cons_of_mem _ hp))

/-- Counterexample to C6 as stated, at two concrete document pairs: the
dynamic document is present and truthy but lacks the `tcp` top-level key,
and the delete fails with `False` instead of treating the missing key as
empty; and a truthy non-mapping static document (the YAML scalar `5`, on
which Python raises `TypeError`) likewise makes the delete fail instead of
succeeding. -/
theorem c6_counterexample :
    (loadConfig envNoTcp DYNAMIC_FILE).map Yaml.truthy = some true ∧
    (loadConfig envNoTcp DYNAMIC_FILE).map (fun dc => dc.hasKey "tcp") = some false ∧
    deleteTunnel envNoTcp [9000] = false ∧
    (loadConfig envNumStatic CONFIG_FILE).map Yaml.truthy = some true ∧
    deleteTunnel envNumStatic [9000] = false :=
  ⟨rfl, rfl, rfl, rfl, rfl⟩

/-- C6 (amended): when both documents load and are truthy, the dynamic one
holds `tcp.routers`/`tcp.services` mappings, the static one is a mapping
whose `entryPoints` value — if the key is present at all — is a mapping,
and the saves and service restart succeed, the delete operation succeeds
for every port list — a missing `entryPoints` key is tolerated as empty —
and removing ports not mentioned anywhere is a no-op on the documents; but
a dynamic document without `tcp.routers`/`tcp.services`, or a truthy
non-mapping static document (Python `TypeError`), makes the operation fail
with `False` rather than be treated as empty. -/
theorem c6_amended (env : Env) (ports : List Nat) (tc dc : Yaml)
    (hl1 : loadConfig env CONFIG_FILE = some tc)
    (hl2 : loadConfig env DYNAMIC_FILE = some dc)
    (ht1 : tc.truthy = true) (ht2 : dc.truthy = true)
    (hwfs : wfStatic tc) (hwf : wfDyn dc)
    (hs1 : env.saveOk CONFIG_FILE = true) (hs2 : env.saveOk DYNAMIC_FILE = true)
    (hres : env.systemctlOk ["restart", "traefik-tunnel.service"] = true) :
    deleteTunnel env ports = true ∧
    ((∀ p ∈ ports, mentionsPort tc dc p = false) →
      deleteLoop tc dc ports = Except.ok (tc, dc)) := by
  constructor
  · obtain ⟨tc', dc', hloop, _⟩ := deleteLoop_wf ports tc dc hwfs hwf
    simp [deleteTunnel, hl1, hl2, ht1, ht2, deletePipeline, hloop, saveConfig, hs1, hs2,
      hres, okB]
  · exact deleteLoop_noop tc dc hwfs hwf ports

/-- Witness for C6 (amended): deleting a port that no document mentions,
with the static document lacking `entryPoints` entirely, succeeds. -/
theorem c6_witness :
    deleteTunnel envWf [7777] = true ∧
    ((∀ p ∈ [7777], mentionsPort tcNoEps defaultDynamicConfig p = false) →
      deleteLoop tcNoEps defaultDynamicConfig [7777] =
        Except.ok (tcNoEps, defaultDynamicConfig)) :=
  c6_amended envWf [7777] tcNoEps defaultDynamicConfig rfl rfl rfl rfl
    ⟨_, rfl, Or.inl rfl⟩ ⟨_, _, _, _, rfl, rfl, rfl, rfl⟩ rfl rfl rfl

/-- C10: the public install and delete operations return a plain boolean:
install returns `True` exactly when validation, the requirements check,
the configuration creation and the service setup all completed without an
exception, and delete returns `True` exactly when both documents loaded
truthy and the delete pipeline (loop, saves, restart) completed without an
exception; every internal failure surfaces as `False`, never as an
exception. -/
theorem c10_no_exception_escape (env : Env) (apiPort : Nat) (ipVersion ipBackend : String)
    (ports : List Nat) :
    (installTunnel env apiPort ipVersion ipBackend ports = true ↔
      (okB (validateInputs env ipVersion ipBackend ports) = true ∧
       okB (checkRequirements env) = true ∧
       okB (createConfigs env apiPort ipBackend ports) = true ∧
       okB (setupService env) = true)) ∧
    (deleteTunnel env ports = true ↔
      (∃ tc dc, loadConfig env CONFIG_FILE = some tc ∧ loadConfig env DYNAMIC_FILE = some dc ∧
        tc.truthy = true ∧ dc.truthy = true ∧
        okB (deletePipeline env tc dc ports) = true)) := by
  constructor
  · unfold installTunnel installPipeline
    cases h1 : validateInputs env ipVersion ipBackend ports with
    | error e => simp [okB, h1]
    | ok u =>
      cases h2 : checkRequirements env with
      | error e => simp [okB, h2]
      | ok u2 =>
        cases h3 : createConfigs env apiPort ipBackend ports with
        | error e => simp [okB, h3]
        | ok r =>
          cases h4 : setupService env with
          | error e => simp [okB, h4]
          | ok u3 => simp [okB, h4]
  · unfold deleteTunnel
    cases hl1 : loadConfig env CONFIG_FILE with
    | none => simp
    | some tc =>
      cases hl2 : loadConfig env DYNAMIC_FILE with
      | none => simp
      | some dc =>
        by_cases ht1 : tc.truthy = true <;> by_cases ht2 : dc.truthy = true <;>
          simp [ht1, ht2]

end ASTunnel
